import Mathlib

/-!
Shallow embedding of the LiveSplit.CrocRemastered autosplitter
(src/src/lib.rs): the level/status data model, the watcher state, the
decoders of `update_loop`, the decision functions `start`, `split`,
`is_loading`, `game_time`, `reset`, the address arithmetic of
`Memory::init`, and the per-tick control flow of `main`.
-/

namespace Croc

/-- The 45 levels, one constructor per variant of the Rust `Level` enum,
in declaration order (src/src/lib.rs lines 300-346). -/
inductive Level
  | L1_1 | L1_2 | L1_3 | L1_B1 | L1_S1 | L1_4 | L1_5 | L1_6 | L1_B2 | L1_S2
  | L2_1 | L2_2 | L2_3 | L2_B1 | L2_S1 | L2_4 | L2_5 | L2_6 | L2_B2 | L2_S2
  | L3_1 | L3_2 | L3_3 | L3_B1 | L3_S1 | L3_4 | L3_5 | L3_6 | L3_B2 | L3_S2
  | L4_1 | L4_2 | L4_3 | L4_B1 | L4_S1 | L4_4 | L4_5 | L4_6 | L4_B2 | L4_S2
  | L5_1 | L5_2 | L5_3 | L5_4 | L5_B1
deriving DecidableEq, Repr

/-- The Rust `GameStatus` enum (src/src/lib.rs lines 348-356). -/
inductive GameStatus
  | Intro | DemoMode | MainMenu | WorldMap | InGame | Unknown
deriving DecidableEq, Repr

/-- Modelled from the spec: the `asr::watcher` Pair of an old and a current
sampled value; the `asr` crate is an external dependency whose source is not
part of this repository. -/
structure Pair (α : Type) where
  old : α
  current : α
deriving DecidableEq, Repr

/-- Modelled from the spec: `Pair::changed_from_to(a, b)` is true iff
old == a and current == b. -/
def Pair.changedFromTo {α : Type} [DecidableEq α] (p : Pair α) (a b : α) : Bool :=
  decide (p.old = a) && decide (p.current = b)

/-- Modelled from the spec: `asr::watcher::Watcher`, a one-slot history
tracker holding an optional old/current pair. -/
structure Watcher (α : Type) where
  pair : Option (Pair α)
deriving DecidableEq, Repr

/-- Modelled from the spec: `Watcher::update_infallible` — if no pair
exists, create one with old = current = the new value; otherwise shift
current into old and store the new value as current. -/
def Watcher.updateInfallible {α : Type} (w : Watcher α) (v : α) : Watcher α :=
  match w.pair with
  | none => ⟨some ⟨v, v⟩⟩
  | some p => ⟨some ⟨p.current, v⟩⟩

/-- The `Watchers` struct (src/src/lib.rs lines 291-296). -/
structure Watchers where
  level : Watcher Level
  level_complete_flag : Watcher Bool
  game_status : Watcher GameStatus
deriving DecidableEq, Repr

/-- `Watchers::default()`: all three watchers start with no pair. -/
def Watchers.default : Watchers := ⟨⟨none⟩, ⟨none⟩, ⟨none⟩⟩

/-- The `Settings` struct (src/src/lib.rs lines 96-240): the auto-start
toggle plus one split toggle per level. -/
structure Settings where
  start : Bool
  level_1_1 : Bool
  level_1_2 : Bool
  level_1_3 : Bool
  level_1_b1 : Bool
  level_1_s1 : Bool
  level_1_4 : Bool
  level_1_5 : Bool
  level_1_6 : Bool
  level_1_b2 : Bool
  level_1_s2 : Bool
  level_2_1 : Bool
  level_2_2 : Bool
  level_2_3 : Bool
  level_2_b1 : Bool
  level_2_s1 : Bool
  level_2_4 : Bool
  level_2_5 : Bool
  level_2_6 : Bool
  level_2_b2 : Bool
  level_2_s2 : Bool
  level_3_1 : Bool
  level_3_2 : Bool
  level_3_3 : Bool
  level_3_b1 : Bool
  level_3_s1 : Bool
  level_3_4 : Bool
  level_3_5 : Bool
  level_3_6 : Bool
  level_3_b2 : Bool
  level_3_s2 : Bool
  level_4_1 : Bool
  level_4_2 : Bool
  level_4_3 : Bool
  level_4_b1 : Bool
  level_4_s1 : Bool
  level_4_4 : Bool
  level_4_5 : Bool
  level_4_6 : Bool
  level_4_b2 : Bool
  level_4_s2 : Bool
  level_5_1 : Bool
  level_5_2 : Bool
  level_5_3 : Bool
  level_5_4 : Bool
  level_5_b1 : Bool
deriving DecidableEq, Repr

/-- The per-level lookup the `split` match performs: which settings field
each `Level` variant selects (src/src/lib.rs lines 457-501). -/
def Settings.splitEnabled (s : Settings) : Level → Bool
  | .L1_1 => s.level_1_1
  | .L1_2 => s.level_1_2
  | .L1_3 => s.level_1_3
  | .L1_4 => s.level_1_4
  | .L1_5 => s.level_1_5
  | .L1_6 => s.level_1_6
  | .L1_B1 => s.level_1_b1
  | .L1_B2 => s.level_1_b2
  | .L1_S1 => s.level_1_s1
  | .L1_S2 => s.level_1_s2
  | .L2_1 => s.level_2_1
  | .L2_2 => s.level_2_2
  | .L2_3 => s.level_2_3
  | .L2_4 => s.level_2_4
  | .L2_5 => s.level_2_5
  | .L2_6 => s.level_2_6
  | .L2_B1 => s.level_2_b1
  | .L2_B2 => s.level_2_b2
  | .L2_S1 => s.level_2_s1
  | .L2_S2 => s.level_2_s2
  | .L3_1 => s.level_3_1
  | .L3_2 => s.level_3_2
  | .L3_3 => s.level_3_3
  | .L3_4 => s.level_3_4
  | .L3_5 => s.level_3_5
  | .L3_6 => s.level_3_6
  | .L3_B1 => s.level_3_b1
  | .L3_B2 => s.level_3_b2
  | .L3_S1 => s.level_3_s1
  | .L3_S2 => s.level_3_s2
  | .L4_1 => s.level_4_1
  | .L4_2 => s.level_4_2
  | .L4_3 => s.level_4_3
  | .L4_4 => s.level_4_4
  | .L4_5 => s.level_4_5
  | .L4_6 => s.level_4_6
  | .L4_B1 => s.level_4_b1
  | .L4_B2 => s.level_4_b2
  | .L4_S1 => s.level_4_s1
  | .L4_S2 => s.level_4_s2
  | .L5_1 => s.level_5_1
  | .L5_2 => s.level_5_2
  | .L5_3 => s.level_5_3
  | .L5_4 => s.level_5_4
  | .L5_B1 => s.level_5_b1

/-- A `Settings` value with every toggle on (the `#[default = true]` values
of every field). -/
def Settings.allOn : Settings :=
  ⟨true, true, true, true, true, true, true, true, true, true, true,
   true, true, true, true, true, true, true, true, true, true,
   true, true, true, true, true, true, true, true, true, true,
   true, true, true, true, true, true, true, true, true, true,
   true, true, true, true, true⟩

/-- The raw reads of one tick: the `u32` at the game-status address, the
`u8` at the level-completion-flag address and the `u32` at the level-id
address; `none` stands for a failed `process.read`. -/
structure Reads where
  game_status : Option Nat
  level_complete_flag : Option Nat
  level_id : Option Nat

/-- First-match evaluation of an ordered list of literal match arms: the
shallow embedding of a Rust integer `match`. -/
def armLookup {α : Type} (v : Nat) : List (Nat × α) → Option α
  | [] => none
  | (k, a) :: t => if v = k then some a else armLookup v t

/-- The arms of the game-status match of `update_loop` (src/src/lib.rs
lines 361-368), in source order. -/
def statusArms : List (Nat × GameStatus) :=
  [(2, .DemoMode), (3, .MainMenu), (5, .InGame), (8, .WorldMap), (12, .Intro)]

/-- The game-status decoder of `update_loop` (src/src/lib.rs lines
361-368): the match over `process.read::<u32>(memory.game_status)`, with
every unmatched code and the read-failure case falling to `Unknown`. -/
def decodeGameStatus : Option Nat → GameStatus
  | some v => (armLookup v statusArms).getD GameStatus.Unknown
  | none => GameStatus.Unknown

/-- The completion-flag decoder of `update_loop` (src/src/lib.rs lines
370-374): `read::<u8>(...).is_ok_and(|val| val != 0)`. -/
def decodeCompletionFlag : Option Nat → Bool
  | some v => decide (v ≠ 0)
  | none => false

/-- The arms of the level-id match of `update_loop` (src/src/lib.rs lines
378-425), in source order: note 18 and 19 map to the secret stages L1_S1
and L1_S2 although the enum declares them elsewhere, and likewise 28 and
29 in world 2. -/
def levelArms : List (Nat × Level) :=
  [(10, .L1_1), (11, .L1_2), (12, .L1_3), (13, .L1_B1), (14, .L1_4),
   (15, .L1_5), (16, .L1_6), (17, .L1_B2), (18, .L1_S1), (19, .L1_S2),
   (20, .L2_1), (21, .L2_2), (22, .L2_3), (23, .L2_B1), (24, .L2_4),
   (25, .L2_5), (26, .L2_6), (27, .L2_B2), (28, .L2_S1), (29, .L2_S2),
   (30, .L3_1), (31, .L3_2), (32, .L3_3), (33, .L3_B1), (34, .L3_4),
   (35, .L3_5), (36, .L3_6), (37, .L3_B2), (38, .L3_S1), (39, .L3_S2),
   (40, .L4_1), (41, .L4_2), (42, .L4_3), (43, .L4_B1), (44, .L4_4),
   (45, .L4_5), (46, .L4_6), (47, .L4_B2), (48, .L4_S1), (49, .L4_S2),
   (50, .L5_1), (51, .L5_2), (52, .L5_3), (53, .L5_4), (54, .L5_B1)]

/-- The level-id decoder of `update_loop` (src/src/lib.rs lines 378-425):
the match over `process.read::<u32>(memory.level_id)`, with every
unmatched code and the read-failure case falling to `Level::L1_1`. -/
def decodeLevel : Option Nat → Level
  | some v => (armLookup v levelArms).getD Level.L1_1
  | none => Level.L1_1

/-- `update_loop` (src/src/lib.rs lines 358-426): decode each raw read and
push the decoded value into its watcher with `update_infallible`. -/
def updateLoop (r : Reads) (w : Watchers) : Watchers :=
  { game_status := w.game_status.updateInfallible (decodeGameStatus r.game_status)
    level_complete_flag :=
      w.level_complete_flag.updateInfallible (decodeCompletionFlag r.level_complete_flag)
    level := w.level.updateInfallible (decodeLevel r.level_id) }

/-- `start` (src/src/lib.rs lines 428-441). -/
def start (w : Watchers) (s : Settings) : Bool :=
  if !s.start then false
  else
    (match w.game_status.pair with
     | some p => p.changedFromTo GameStatus.MainMenu GameStatus.WorldMap
     | none => false)
    && (match w.level.pair with
        | some p => decide (p.current = Level.L1_1)
        | none => false)

/-- `is_loading` (src/src/lib.rs lines 443-445): always `None`. -/
def is_loading (_w : Watchers) (_s : Settings) : Option Bool := none

/-- `split` (src/src/lib.rs lines 447-504): the three gates in source
order; the level gate matches on `watchers.level.pair.map(|val| val.old)`
with one arm per level and the `None` case falling to false. -/
def split (w : Watchers) (s : Settings) : Bool :=
  (match w.game_status.pair with
   | some p => decide (p.current = GameStatus.InGame)
   | none => false)
  && (match w.level_complete_flag.pair with
      | some p => p.changedFromTo false true
      | none => false)
  && (match w.level.pair.map Pair.old with
      | some l => s.splitEnabled l
      | none => false)

/-- The `Memory` struct (src/src/lib.rs lines 242-246): the three resolved
addresses, modelled as integers. -/
structure Memory where
  level_id : Int
  game_status : Int
  level_completion_flag : Int

/-- `game_time` (src/src/lib.rs lines 506-508): always `None`. Duration is
modelled as an integer tick count. -/
def game_time (_w : Watchers) (_s : Settings) (_m : Memory) : Option Int := none

/-- `reset` (src/src/lib.rs lines 510-512): always false. -/
def reset (_w : Watchers) (_s : Settings) : Bool := false

/-- The level-id address resolution of `Memory::init` (src/src/lib.rs
lines 254-261): the scan hit plus 8, then one displacement indirection
`addr + 0x4 + read_i32(addr)`. `scanHit` is the scan result, `readI32` the
4-byte signed read; `none` stands for not-found / read failure. -/
def levelIdAddress (scanHit : Option Int) (readI32 : Int → Option Int) : Option Int :=
  (scanHit.map (fun v => v + 8)).bind
    (fun addr => (readI32 addr).map (fun disp => addr + 4 + disp))

/-- The game-status address resolution of `Memory::init` (src/src/lib.rs
lines 263-270): the scan hit plus 2, then `addr + 0x4 + read_i32(addr)`. -/
def gameStatusAddress (scanHit : Option Int) (readI32 : Int → Option Int) : Option Int :=
  (scanHit.map (fun v => v + 2)).bind
    (fun addr => (readI32 addr).map (fun disp => addr + 4 + disp))

/-- The completion-flag address resolution of `Memory::init`
(src/src/lib.rs lines 272-281): the scan hit plus 6, then
`addr + 0x5 + read_i32(addr)`, and a trailing `+ 1` applied to the
resolved value. -/
def levelCompletionFlagAddress (scanHit : Option Int) (readI32 : Int → Option Int) :
    Option Int :=
  ((scanHit.map (fun v => v + 6)).bind
    (fun addr => (readI32 addr).map (fun disp => addr + 5 + disp))).map (fun v => v + 1)

/-- The external timer states of `asr::timer::TimerState` read by the
loop. -/
inductive TimerState
  | NotRunning | Running | Paused | Ended
deriving DecidableEq, Repr

/-- The timer-control commands the loop can issue. -/
inductive TimerCommand
  | StartCmd | SplitCmd | ResetCmd | PauseGameTime | ResumeGameTime | SetGameTime (d : Int)
deriving DecidableEq, Repr

/-- One observable step of a tick: either the evaluation of a decision
function or an issued timer command. -/
inductive Event
  | EvalIsLoading | EvalGameTime | EvalReset | EvalSplit | EvalStart
  | Cmd (c : TimerCommand)
deriving DecidableEq, Repr

/-- The commands a `match is_loading(..)` dispatch issues (src/src/lib.rs
lines 58-62 and 82-86): pause on `Some(true)`, resume on `Some(false)`,
nothing on `None`. -/
def loadingCommands : Option Bool → List TimerCommand
  | some true => [TimerCommand.PauseGameTime]
  | some false => [TimerCommand.ResumeGameTime]
  | none => []

/-- The Running/Paused-gated branch of the loop body (src/src/lib.rs lines
57-76), as the events it produces: gated on the first `timer::state()`
read being Running or Paused; inside, is_loading then game_time then
reset are evaluated, and split is evaluated only when reset is false. -/
def runningBranchEvents (s1 : TimerState) (w : Watchers) (cfg : Settings) (m : Memory) :
    List Event :=
  if s1 = TimerState.Running ∨ s1 = TimerState.Paused then
    Event.EvalIsLoading :: (loadingCommands (is_loading w cfg)).map Event.Cmd
      ++ Event.EvalGameTime ::
        (match game_time w cfg m with
         | some x => [Event.Cmd (TimerCommand.SetGameTime x)]
         | none => [])
      ++ Event.EvalReset ::
        (if reset w cfg then [Event.Cmd TimerCommand.ResetCmd]
         else Event.EvalSplit ::
           (if split w cfg then [Event.Cmd TimerCommand.SplitCmd] else []))
  else []

/-- The NotRunning-gated branch of the loop body (src/src/lib.rs lines
78-87), as the events it produces: gated on the second `timer::state()`
read being NotRunning; `start` is then evaluated, and when it is true the
loop issues start, pause-game-time, and re-evaluates is_loading once. -/
def startBranchEvents (s2 : TimerState) (w : Watchers) (cfg : Settings) : List Event :=
  if s2 = TimerState.NotRunning then
    Event.EvalStart ::
      (if start w cfg then
        Event.Cmd TimerCommand.StartCmd :: Event.Cmd TimerCommand.PauseGameTime ::
          Event.EvalIsLoading :: (loadingCommands (is_loading w cfg)).map Event.Cmd
       else [])
  else []

/-- The decision phase of one tick of the loop body (after `update_loop`):
`s1` is the value of the first `timer::state()` read (line 57), `s2` the
value of the second (line 78). -/
def tickEvents (s1 s2 : TimerState) (w : Watchers) (cfg : Settings) (m : Memory) :
    List Event :=
  runningBranchEvents s1 w cfg m ++ startBranchEvents s2 w cfg

/-- The commands among a list of events, in order. -/
def commandsOf (l : List Event) : List TimerCommand :=
  l.filterMap (fun e => match e with | Event.Cmd c => some c | _ => none)

/-- Iterated ticks of the sampler: fold `update_loop` over a list of raw
reads, one per tick, starting from a given watcher state. -/
def runTicks (w : Watchers) (rs : List Reads) : Watchers :=
  rs.foldl (fun acc r => updateLoop r acc) w

/-- A concrete watcher state right after the menu-to-world-map transition
onto the first level: status pair MainMenu to WorldMap, level current
L1_1, completion flag steady false. -/
def wStartEx : Watchers :=
  ⟨⟨some ⟨Level.L1_S2, Level.L1_1⟩⟩, ⟨some ⟨false, false⟩⟩,
   ⟨some ⟨GameStatus.MainMenu, GameStatus.WorldMap⟩⟩⟩

/-- A concrete watcher state at a level completion: status steady InGame,
completion flag false to true, level pair L1_1 to L1_2. -/
def wSplitEx : Watchers :=
  ⟨⟨some ⟨Level.L1_1, Level.L1_2⟩⟩, ⟨some ⟨false, true⟩⟩,
   ⟨some ⟨GameStatus.InGame, GameStatus.InGame⟩⟩⟩

/-- A concrete `Memory` value for closed instantiations. -/
def memEx : Memory := ⟨0, 0, 0⟩

end Croc

namespace Croc

/-! Helper lemmas shared by the claim theorems. -/

/-- A literal match whose arms all carry keys different from the
scrutinee falls through to its default. -/
theorem armLookup_none {α : Type} (v : Nat) :
    ∀ (l : List (Nat × α)), (∀ p ∈ l, p.1 ≠ v) → armLookup v l = none := by
  intro l
  induction l with
  | nil => intro _; rfl
  | cons p t ih =>
    intro h
    rcases p with ⟨k, a⟩
    have hk : k ≠ v := h (k, a) (List.mem_cons_self _ t)
    simp only [armLookup, if_neg (Ne.symm hk)]
    exact ih fun q hq => h q (List.mem_cons_of_mem _ hq)

/-- An infallible update always leaves a pair whose current value is the
pushed value. -/
theorem updateInfallible_map_current {α : Type} (w : Watcher α) (v : α) :
    (w.updateInfallible v).pair.map Pair.current = some v := by
  rcases w with ⟨_ | p⟩ <;> rfl

/-- After any single `update_loop`, all three watcher pairs exist. -/
theorem updateLoop_pairs_isSome (r : Reads) (w : Watchers) :
    (updateLoop r w).game_status.pair.isSome = true ∧
    (updateLoop r w).level.pair.isSome = true ∧
    (updateLoop r w).level_complete_flag.pair.isSome = true := by
  rcases w with ⟨⟨_ | lp⟩, ⟨_ | fp⟩, ⟨_ | gp⟩⟩ <;>
    simp [updateLoop, Watcher.updateInfallible]

/-- `runTicks` peels its first tick. -/
theorem runTicks_cons (w : Watchers) (r : Reads) (rs : List Reads) :
    runTicks w (r :: rs) = runTicks (updateLoop r w) rs := rfl

/-- Ticking preserves the all-pairs-exist invariant. -/
theorem runTicks_pairs_isSome (rs : List Reads) (w : Watchers)
    (h : w.game_status.pair.isSome = true ∧ w.level.pair.isSome = true ∧
      w.level_complete_flag.pair.isSome = true) :
    (runTicks w rs).game_status.pair.isSome = true ∧
    (runTicks w rs).level.pair.isSome = true ∧
    (runTicks w rs).level_complete_flag.pair.isSome = true := by
  induction rs generalizing w with
  | nil => exact h
  | cons r rs ih => exact runTicks_cons w r rs ▸ ih _ (updateLoop_pairs_isSome r w)

/-- When the status and level pairs exist, `start` reduces to its
pair-level formula: the None fallbacks do not decide the result. -/
theorem start_of_pairs (w : Watchers) (cfg : Settings) (gp : Pair GameStatus)
    (lp : Pair Level) (hg : w.game_status.pair = some gp) (hl : w.level.pair = some lp) :
    start w cfg =
      (cfg.start && gp.changedFromTo GameStatus.MainMenu GameStatus.WorldMap &&
        decide (lp.current = Level.L1_1)) := by
  cases h : cfg.start <;> simp [start, h, hg, hl]

/-- When all three pairs exist, `split` reduces to its pair-level formula:
the None fallbacks do not decide the result. -/
theorem split_of_pairs (w : Watchers) (cfg : Settings) (gp : Pair GameStatus)
    (lp : Pair Level) (fp : Pair Bool) (hg : w.game_status.pair = some gp)
    (hl : w.level.pair = some lp) (hf : w.level_complete_flag.pair = some fp) :
    split w cfg =
      (decide (gp.current = GameStatus.InGame) && fp.changedFromTo false true &&
        cfg.splitEnabled lp.old) := by
  simp [split, hg, hl, hf]

/-- C1: `split(watchers, settings)` is true iff the current game status is
InGame, the completion-flag pair changed from false to true, and the
configuration enables splitting for the OLD value of the level watcher;
with no level pair it is false rather than an error. -/
theorem C1_split_characterization : ∀ (w : Watchers) (cfg : Settings),
    (split w cfg = true ↔
      (∃ gp, w.game_status.pair = some gp ∧ gp.current = GameStatus.InGame) ∧
      (∃ fp, w.level_complete_flag.pair = some fp ∧ fp.old = false ∧ fp.current = true) ∧
      (∃ lp, w.level.pair = some lp ∧ cfg.splitEnabled lp.old = true)) ∧
    (w.level.pair = none → split w cfg = false) := by
  intro w cfg
  rcases w with ⟨⟨_ | lp⟩, ⟨_ | fp⟩, ⟨_ | gp⟩⟩ <;>
    simp [split, Pair.changedFromTo, and_assoc]

/-- C3: `start(watchers, settings)` is true iff auto-start is enabled, the
game-status pair changed from MainMenu to WorldMap, and the current value
of the level watcher is the first level; with auto-start disabled it is
false regardless of the watchers. -/
theorem C3_start_characterization : ∀ (w : Watchers) (cfg : Settings),
    (start w cfg = true ↔
      cfg.start = true ∧
      (∃ gp, w.game_status.pair = some gp ∧ gp.old = GameStatus.MainMenu ∧
        gp.current = GameStatus.WorldMap) ∧
      (∃ lp, w.level.pair = some lp ∧ lp.current = Level.L1_1)) ∧
    (cfg.start = false → start w cfg = false) := by
  intro w cfg
  rcases w with ⟨⟨_ | lp⟩, ⟨_ | fp⟩, ⟨_ | gp⟩⟩ <;>
    cases h : cfg.start <;>
      simp [start, h, Pair.changedFromTo, and_assoc]

/-- C4: a failed read never aborts the tick: under all-failed reads,
`update_loop` still updates all three watchers, pushing Unknown for the
status, false for the completion flag and L1_1 for the level id (the same
value an unrecognized level code decodes to). -/
theorem C4_read_failure_defaults : ∀ (w : Watchers),
    (updateLoop ⟨none, none, none⟩ w).game_status.pair.map Pair.current =
      some GameStatus.Unknown ∧
    (updateLoop ⟨none, none, none⟩ w).level_complete_flag.pair.map Pair.current =
      some false ∧
    (updateLoop ⟨none, none, none⟩ w).level.pair.map Pair.current = some Level.L1_1 ∧
    decodeGameStatus none = GameStatus.Unknown ∧
    decodeCompletionFlag none = false ∧
    decodeLevel none = Level.L1_1 ∧
    decodeLevel none = decodeLevel (some 55) := by
  intro w
  refine ⟨updateInfallible_map_current .., updateInfallible_map_current ..,
    updateInfallible_map_current .., rfl, rfl, rfl, by decide⟩

/-- C5: watcher semantics — the first push creates a pair with old =
current = the pushed value, each later push shifts current into old and
stores the new value as current, and `changed_from_to(a, b)` holds iff
old = a and current = b. -/
theorem C5_watcher_semantics (α : Type) [DecidableEq α] :
    ∀ (w : Watcher α) (u v a b : α) (p : Pair α),
      ((⟨none⟩ : Watcher α).updateInfallible v).pair = some ⟨v, v⟩ ∧
      ((⟨some p⟩ : Watcher α).updateInfallible v).pair = some ⟨p.current, v⟩ ∧
      ((w.updateInfallible u).updateInfallible v).pair = some ⟨u, v⟩ ∧
      (p.changedFromTo a b = true ↔ p.old = a ∧ p.current = b) := by
  intro w u v a b p
  refine ⟨rfl, rfl, ?_, ?_⟩
  · rcases w with ⟨_ | q⟩ <;> rfl
  · simp [Pair.changedFromTo]

/-- C2 counterexample: with scan hit 0 and displacement 0, the code
resolves the completion-flag address to 12, while the claimed formula
hit + offset + 4 + displacement + 1 gives 11. -/
theorem C2_counterexample :
    levelCompletionFlagAddress (some 0) (fun _ => some 0) = some 12 ∧
    (0 : Int) + 6 + 4 + 0 + 1 = 11 ∧ (12 : Int) ≠ 11 := by
  refine ⟨by decide, by decide, by decide⟩

/-- C2 (amended): the level-id and game-status addresses resolve to
hit + offset + 4 + displacement, with the displacement read at
hit + offset; the completion-flag address applies an inner 0x5 step
instead of 0x4 and then a trailing + 1, resolving to
hit + 6 + 4 + displacement + 2. -/
theorem C2_address_resolution : ∀ (hit : Int) (f : Int → Option Int),
    levelIdAddress (some hit) f = (f (hit + 8)).map (fun d => hit + 8 + 4 + d) ∧
    gameStatusAddress (some hit) f = (f (hit + 2)).map (fun d => hit + 2 + 4 + d) ∧
    levelCompletionFlagAddress (some hit) f =
      (f (hit + 6)).map (fun d => hit + 6 + 4 + d + 2) := by
  intro hit f
  refine ⟨rfl, rfl, ?_⟩
  cases h : f (hit + 6) <;> simp [levelCompletionFlagAddress, h]
  ring

/-- C6 counterexample: with the first timer-state read Running and the
second NotRunning, one tick evaluates both the Running/Paused-gated
decision functions (reset and split among them) and start. -/
theorem C6_counterexample :
    Event.EvalReset ∈
      tickEvents TimerState.Running TimerState.NotRunning Watchers.default Settings.allOn memEx ∧
    Event.EvalSplit ∈
      tickEvents TimerState.Running TimerState.NotRunning Watchers.default Settings.allOn memEx ∧
    Event.EvalStart ∈
      tickEvents TimerState.Running TimerState.NotRunning Watchers.default Settings.allOn memEx := by
  decide

/-- C6 (amended): in any tick whose two timer-state reads agree, the
Running/Paused-gated decision functions and start are never both
evaluated. -/
theorem C6_branches_exclusive : ∀ (s : TimerState) (w : Watchers) (cfg : Settings) (m : Memory),
    Event.EvalReset ∉ tickEvents s s w cfg m ∨ Event.EvalStart ∉ tickEvents s s w cfg m := by
  intro s w cfg m
  cases s with
  | NotRunning =>
    left
    cases h : start w cfg <;>
      simp [tickEvents, runningBranchEvents, startBranchEvents, h, is_loading, loadingCommands]
  | Ended =>
    left
    simp [tickEvents, runningBranchEvents, startBranchEvents]
  | Running =>
    right
    cases h : split w cfg <;>
      simp [tickEvents, runningBranchEvents, startBranchEvents, h, is_loading, game_time,
        reset, loadingCommands]
  | Paused =>
    right
    cases h : split w cfg <;>
      simp [tickEvents, runningBranchEvents, startBranchEvents, h, is_loading, game_time,
        reset, loadingCommands]

/-- C7: in a tick whose timer state is NotRunning and where `start` is
true, the loop issues exactly start then pause-game-time, re-evaluating
is_loading exactly once afterwards, and would issue pause on Some(true),
resume on Some(false) and nothing on None. -/
theorem C7_start_sequence : ∀ (w : Watchers) (cfg : Settings) (m : Memory),
    start w cfg = true →
    commandsOf (tickEvents TimerState.NotRunning TimerState.NotRunning w cfg m) =
      [TimerCommand.StartCmd, TimerCommand.PauseGameTime] ∧
    (tickEvents TimerState.NotRunning TimerState.NotRunning w cfg m).count
      Event.EvalIsLoading = 1 ∧
    startBranchEvents TimerState.NotRunning w cfg =
      Event.EvalStart :: Event.Cmd TimerCommand.StartCmd ::
        Event.Cmd TimerCommand.PauseGameTime :: Event.EvalIsLoading ::
        (loadingCommands (is_loading w cfg)).map Event.Cmd := by
  intro w cfg m h
  refine ⟨?_, ?_, ?_⟩ <;>
    simp [tickEvents, runningBranchEvents, startBranchEvents, commandsOf, h,
      is_loading, loadingCommands]

/-- C7 witness: the start-sequence theorem instantiated at the concrete
menu-to-world-map watcher state with every setting enabled. -/
theorem C7_start_sequence_witness :
    commandsOf (tickEvents TimerState.NotRunning TimerState.NotRunning wStartEx
        Settings.allOn memEx) =
      [TimerCommand.StartCmd, TimerCommand.PauseGameTime] ∧
    (tickEvents TimerState.NotRunning TimerState.NotRunning wStartEx Settings.allOn
        memEx).count Event.EvalIsLoading = 1 ∧
    startBranchEvents TimerState.NotRunning wStartEx Settings.allOn =
      Event.EvalStart :: Event.Cmd TimerCommand.StartCmd ::
        Event.Cmd TimerCommand.PauseGameTime :: Event.EvalIsLoading ::
        (loadingCommands (is_loading wStartEx Settings.allOn)).map Event.Cmd :=
  C7_start_sequence wStartEx Settings.allOn memEx (by decide)

/-- C8: `reset`, `is_loading` and `game_time` are inert — always false,
None and None — so the Running/Paused branch issues at most a split
command and never a reset, pause, resume or set-game-time command. -/
theorem C8_inert_extension_points :
    ∀ (w : Watchers) (cfg : Settings) (m : Memory) (s1 : TimerState),
      reset w cfg = false ∧ is_loading w cfg = none ∧ game_time w cfg m = none ∧
      commandsOf (runningBranchEvents s1 w cfg m) =
        (if s1 = TimerState.Running ∨ s1 = TimerState.Paused then
          (if split w cfg then [TimerCommand.SplitCmd] else []) else []) := by
  intro w cfg m s1
  refine ⟨rfl, rfl, rfl, ?_⟩
  by_cases hs : s1 = TimerState.Running ∨ s1 = TimerState.Paused <;>
    cases h : split w cfg <;>
      simp [runningBranchEvents, commandsOf, hs, h, is_loading, game_time, reset,
        loadingCommands]

/-- C9: the level decoder maps the 45 codes 10 through 54 to 45 distinct
levels, in source order (18 to L1_S1 and 19 to L1_S2 out of declaration
order, likewise 28 and 29 in world 2), every code outside 10..54 to L1_1,
and the status decoder maps exactly 2, 3, 5, 8, 12 to DemoMode, MainMenu,
InGame, WorldMap, Intro and every other code to Unknown. -/
theorem C9_decoder_totality :
    ((List.range 45).map (fun i => decodeLevel (some (10 + i)))).Nodup ∧
    decodeLevel (some 10) = Level.L1_1 ∧
    decodeLevel (some 11) = Level.L1_2 ∧
    decodeLevel (some 18) = Level.L1_S1 ∧
    decodeLevel (some 19) = Level.L1_S2 ∧
    decodeLevel (some 28) = Level.L2_S1 ∧
    decodeLevel (some 29) = Level.L2_S2 ∧
    decodeLevel (some 54) = Level.L5_B1 ∧
    (∀ n : Nat, n < 10 ∨ 54 < n → decodeLevel (some n) = Level.L1_1) ∧
    decodeGameStatus (some 2) = GameStatus.DemoMode ∧
    decodeGameStatus (some 3) = GameStatus.MainMenu ∧
    decodeGameStatus (some 5) = GameStatus.InGame ∧
    decodeGameStatus (some 8) = GameStatus.WorldMap ∧
    decodeGameStatus (some 12) = GameStatus.Intro ∧
    (∀ n : Nat, ¬(n = 2 ∨ n = 3 ∨ n = 5 ∨ n = 8 ∨ n = 12) →
      decodeGameStatus (some n) = GameStatus.Unknown) := by
  refine ⟨by decide, by decide, by decide, by decide, by decide, by decide, by decide,
    by decide, ?_, by decide, by decide, by decide, by decide, by decide, ?_⟩
  · intro n h
    have hkeys : ∀ p ∈ levelArms, 10 ≤ p.1 ∧ p.1 ≤ 54 := by decide
    have hnone : armLookup n levelArms = none :=
      armLookup_none n levelArms fun p hp => by have := hkeys p hp; omega
    simp [decodeLevel, hnone]
  · intro n h
    have hkeys : ∀ p ∈ statusArms, p.1 = 2 ∨ p.1 = 3 ∨ p.1 = 5 ∨ p.1 = 8 ∨ p.1 = 12 := by
      decide
    have hnone : armLookup n statusArms = none :=
      armLookup_none n statusArms fun p hp => by have := hkeys p hp; omega
    simp [decodeGameStatus, hnone]

/-- C10: starting from the default watchers, after any nonempty sequence
of ticks all three watcher pairs exist, and on such a state `start` and
`split` are decided entirely by the pair values — the None-pair fallback
branches inside them are unreachable. -/
theorem C10_pairs_invariant : ∀ (r : Reads) (rs : List Reads) (cfg : Settings),
    ((runTicks Watchers.default (r :: rs)).game_status.pair.isSome = true ∧
     (runTicks Watchers.default (r :: rs)).level.pair.isSome = true ∧
     (runTicks Watchers.default (r :: rs)).level_complete_flag.pair.isSome = true) ∧
    (∃ gp lp fp,
      (runTicks Watchers.default (r :: rs)).game_status.pair = some gp ∧
      (runTicks Watchers.default (r :: rs)).level.pair = some lp ∧
      (runTicks Watchers.default (r :: rs)).level_complete_flag.pair = some fp ∧
      start (runTicks Watchers.default (r :: rs)) cfg =
        (cfg.start && gp.changedFromTo GameStatus.MainMenu GameStatus.WorldMap &&
          decide (lp.current = Level.L1_1)) ∧
      split (runTicks Watchers.default (r :: rs)) cfg =
        (decide (gp.current = GameStatus.InGame) && fp.changedFromTo false true &&
          cfg.splitEnabled lp.old)) := by
  intro r rs cfg
  have hsome := runTicks_pairs_isSome rs (updateLoop r Watchers.default)
    (updateLoop_pairs_isSome r Watchers.default)
  rw [← runTicks_cons] at hsome
  obtain ⟨hg, hl, hf⟩ := hsome
  obtain ⟨gp, hgp⟩ := Option.isSome_iff_exists.mp hg
  obtain ⟨lp, hlp⟩ := Option.isSome_iff_exists.mp hl
  obtain ⟨fp, hfp⟩ := Option.isSome_iff_exists.mp hf
  exact ⟨⟨hg, hl, hf⟩, gp, lp, fp, hgp, hlp, hfp,
    start_of_pairs _ cfg gp lp hgp hlp, split_of_pairs _ cfg gp lp fp hgp hlp hfp⟩

end Croc
